import Mathlib

/-!
Verification development for the startup orchestrator of QuantumLauncher
(`quantum_launcher/src/main.rs`): the migration guard (`should_migrate`),
the migration action (`do_migration`), the startup task batch built by
`Launcher::new`, and the Discord IPC retry-connection loop.

Filesystem state is modelled abstractly: paths are component lists, the
filesystem maps each path to an optional node (regular file, directory, or
symbolic link).  The directory-resolution services
`file_utils::migration_legacy_launcher_dir` / `migration_launcher_dir` are
not part of the translated file; following the specification they are
modelled as `Option Path` fields of the state ("a directory-resolution
service `legacy_dir() -> Option<Path>`, `new_dir() -> Option<Path>`").
-/

namespace QuantumLauncher

/-- A filesystem path, as a list of components. -/
abbrev FPath := List String

/-- A filesystem node: a regular file, a directory, or a symbolic link.
The `content` field is an opaque fingerprint of the file's or the
directory tree's data, used to state preservation properties. -/
inductive Node where
  | file (content : Nat)
  | dir (content : Nat)
  | symlink (target : FPath)
deriving DecidableEq, Repr

/-- Abstract filesystem state at the instant of a check.
`legacyDir` models the result of `file_utils::migration_legacy_launcher_dir()`
and `newDir` the result of `file_utils::migration_launcher_dir()`
(modelled from the spec: the directory-resolution service returns
`Option<Path>`; the functions themselves are outside the translated file).
`entries` maps each path to the node currently stored there, if any. -/
structure Fs where
  legacyDir : Option FPath
  newDir : Option FPath
  entries : FPath → Option Node

/-- Rust `Path::is_symlink()`: true when the entry at `p` is a symbolic
link (the link itself, without following it). -/
def isSymlink (fs : Fs) (p : FPath) : Bool :=
  match fs.entries p with
  | some (.symlink _) => true
  | _ => false

/-- Rust `Path::exists()`: true when an entry is present at `p`; a
symbolic link counts only when its target is present (``exists`` follows
symlinks; the model follows one level). -/
def pathExists (fs : Fs) (p : FPath) : Bool :=
  match fs.entries p with
  | none => false
  | some (.symlink t) => (fs.entries t).isSome
  | some _ => true

/-- Existence specifically as a directory (Rust `Path::is_dir()`,
following one level of symlink).  `should_migrate` does not use this
predicate — it is the reading "exists as a directory" used by the
specification's claim about the guard, kept here for comparison. -/
def existsAsDir (fs : Fs) (p : FPath) : Bool :=
  match fs.entries p with
  | some (.dir _) => true
  | some (.symlink t) =>
    match fs.entries t with
    | some (.dir _) => true
    | _ => false
  | _ => false

/-- Console / logging output events produced during migration.
`stdoutLine` models `println!`, `stderrLine` models `eprintln!`, and
`structuredLog` models a call into the structured logging subsystem
(`ql_core::info!` and friends). -/
inductive ConsoleEvent where
  | stdoutLine (msg : String)
  | stderrLine (msg : String)
  | structuredLog (msg : String)
deriving DecidableEq, Repr

/-- Whether an output event went through the structured logging
subsystem. -/
def ConsoleEvent.isStructured : ConsoleEvent → Bool
  | .structuredLog _ => true
  | _ => false

/-- The migration guard `should_migrate` together with the console output
it produces.  Translated from `main.rs`:

1. no legacy dir resolvable → `false`;
2. legacy dir is a symlink, or does not exist → `false`;
3. no new dir resolvable → `false` (with an `eprintln!`);
4. `new_dir/config.json` exists → `false` (with an `eprintln!`);
5. legacy dir equals new dir → `false` (with an `eprintln!`);
6. otherwise `true`. -/
def should_migrate_run (fs : Fs) : Bool × List ConsoleEvent :=
  match fs.legacyDir with
  | none => (false, [])
  | some legacy =>
    if isSymlink fs legacy || !pathExists fs legacy then
      (false, [])
    else
      match fs.newDir with
      | none => (false, [.stderrLine "Failed to get new directory"])
      | some newDir =>
        if pathExists fs (newDir ++ ["config.json"]) then
          (false, [.stderrLine "Skipping migration: target config exists"])
        else if legacy = newDir then
          (false, [.stderrLine "Skipping migration: same directory"])
        else
          (true, [])

/-- The boolean decision of the migration guard. -/
def should_migrate (fs : Fs) : Bool :=
  (should_migrate_run fs).1

/-- Effect of `std::fs::rename(src, dst)` on the abstract state: the node
at `src` now sits at `dst`; nothing else changes. -/
def fsRename (fs : Fs) (src dst : FPath) : Fs :=
  { fs with
    entries := fun p =>
      if p = dst then fs.entries src
      else if p = src then none
      else fs.entries p }

/-- Effect of `file_utils::create_symlink(target, link)` (modelled from the
spec: "a symbolic-link creation primitive" that replaces the old legacy
path with a symbolic link pointing to the new path): a symlink node
pointing at `target` now sits at `link`. -/
def fsCreateSymlink (fs : Fs) (target link : FPath) : Fs :=
  { fs with
    entries := fun p =>
      if p = link then some (.symlink target) else fs.entries p }

/-- Outcome of the two fallible filesystem syscalls attempted by
`do_migration`, decided by the environment (the OS). -/
structure FsOpsOutcome where
  renameOk : Bool
  symlinkOk : Bool
deriving DecidableEq, Repr

/-- The migration action `do_migration`, returning the final filesystem
state and the console output produced.  Translated from `main.rs`:
`println!("Running migration")`; when both directories resolve, attempt
the rename; on rename failure report via `eprintln!` and stop; on rename
success attempt the symlink, reporting its failure via `eprintln!`; on
full success report via `ql_core::info!` (the structured logger). -/
def do_migration (env : FsOpsOutcome) (fs : Fs) : Fs × List ConsoleEvent :=
  let intro : List ConsoleEvent := [.stdoutLine "Running migration"]
  match fs.legacyDir, fs.newDir with
  | some legacy, some newDir =>
    if env.renameOk then
      let fs1 := fsRename fs legacy newDir
      if env.symlinkOk then
        (fsCreateSymlink fs1 newDir legacy,
          intro ++ [.structuredLog "Migration successful!"])
      else
        (fs1,
          intro ++
            [.stderrLine
              "Migration successful but couldn't create symlink to the legacy dir"])
    else
      (fs, intro ++ [.stderrLine "Migration failed"])
  | _, _ => (fs, intro)

/-- The decision-then-action sequence run at startup on Linux/FreeBSD:
`if should_migrate() { do_migration() }`. -/
def migration_step (env : FsOpsOutcome) (fs : Fs) : Fs :=
  if should_migrate fs then (do_migration env fs).1 else fs

/-! ### The startup task batch built by `Launcher::new` -/

/-- The error type of a failed configuration load (`JsonFileError`),
with its two variants; the payloads are irrelevant here. -/
inductive JsonFileError where
  | ioErr
  | jsonErr
deriving DecidableEq, Repr

/-- The launcher configuration, reduced to the field `Launcher::new`
reads: `rich_presence : Option<bool>`. -/
structure LauncherConfig where
  rich_presence : Option Bool
deriving DecidableEq, Repr

/-- The application state after loading, reduced to what `Launcher::new`
matches on: either the main launch menu (`State::Launch`) or some other
state such as the error screen.  (The full `State` enum lives outside the
translated file; modelled from the spec, which distinguishes only the
launch-menu state for the notes-reload condition.) -/
inductive LState where
  | launch
  | otherState (tag : String)
deriving DecidableEq, Repr

/-- The freshly loaded launcher value, reduced to the fields
`Launcher::new` reads when assembling the batch (`Launcher::load_new`
itself is outside the translated file; modelled from the spec:
"an instance is already selected from the freshly loaded application
state"). -/
structure LoadedLauncher where
  selected_instance : Option String
  state : LState
deriving DecidableEq, Repr

/-- A startup task, identified by what it does. -/
inductive TaskDesc where
  | updateCheck
  | getEntries (refresh : Bool)
  | loadNotes (instanceName : String)
  | discordIPC
  | cleanDir (dir : String)
  | customJarLoad
deriving DecidableEq, Repr

/-- An `iced::Task<Message>` slot in the batch: either `Task::none()`
(a no-op producing no completion event) or `Task::perform` of a startup
operation. -/
inductive STask where
  | noTask
  | perform (d : TaskDesc)
deriving DecidableEq, Repr

/-- Decidable equality for task outcomes. -/
instance {ε α : Type} [DecidableEq ε] [DecidableEq α] :
    DecidableEq (Except ε α) := fun a b =>
  match a, b with
  | .ok x, .ok y =>
    if h : x = y then isTrue (by rw [h])
    else isFalse (by intro c; cases c; exact h rfl)
  | .ok _, .error _ => isFalse (by intro c; cases c)
  | .error _, .ok _ => isFalse (by intro c; cases c)
  | .error x, .error y =>
    if h : x = y then isTrue (by rw [h])
    else isFalse (by intro c; cases c; exact h rfl)

/-- The completion-event type (`Message` variants used by the batch).
Each carries the stringified result of its task (`strerr`). -/
inductive Message where
  | updateCheckResult (r : Except String Unit)
  | coreListLoaded (r : Except String Unit)
  | notesLoaded (r : Except String Unit)
  | discordIPCClientLaunched (r : Except String Unit)
  | coreCleanComplete (r : Except String Unit)
  | customJarLoaded (r : Except String Unit)
deriving DecidableEq, Repr

/-- The completion-event constructor paired with each task, mirroring the
second argument of each `Task::perform` in `Launcher::new`. -/
def message_of (d : TaskDesc) (r : Except String Unit) : Message :=
  match d with
  | .updateCheck => .updateCheckResult r
  | .getEntries _ => .coreListLoaded r
  | .loadNotes _ => .notesLoaded r
  | .discordIPC => .discordIPCClientLaunched r
  | .cleanDir _ => .coreCleanComplete r
  | .customJarLoad => .customJarLoaded r

/-- The Discord IPC scheduling condition, translated from
`config.as_ref().is_ok_and(|f| f.rich_presence.unwrap_or(true))`:
the configuration must have loaded successfully, and its
`rich_presence` field (defaulting to `true` when absent) must be set. -/
def rich_presence_enabled (config : Except JsonFileError LauncherConfig) : Bool :=
  match config with
  | .ok f => f.rich_presence.getD true
  | .error _ => false

/-- The startup task batch assembled by `Launcher::new`, in source order:
update check (compile-time feature flag `auto_update`), entry-list load,
notes reload, Discord IPC, the two directory cleanups, and the custom-jar
state load. -/
def launcher_new_batch (autoUpdate : Bool)
    (config : Except JsonFileError LauncherConfig)
    (launcher : LoadedLauncher) : List STask :=
  [ if autoUpdate then .perform .updateCheck else .noTask,
    .perform (.getEntries false),
    (match launcher.selected_instance, launcher.state with
     | some inst, .launch => .perform (.loadNotes inst)
     | _, _ => .noTask),
    (if rich_presence_enabled config then .perform .discordIPC else .noTask),
    .perform (.cleanDir "logs"),
    .perform (.cleanDir "downloads/cache"),
    .perform .customJarLoad ]

/-- The tasks of a batch that are actually scheduled (`Task::none`
contributes nothing). -/
def scheduled (batch : List STask) : List TaskDesc :=
  batch.filterMap fun t =>
    match t with
    | .noTask => none
    | .perform d => some d

/-- The completion events delivered for a batch, given each scheduled
task's outcome: exactly one event per scheduled task, built by that
task's own event constructor from its own result. -/
def completion_events (batch : List STask)
    (outcome : TaskDesc → Except String Unit) : List Message :=
  (scheduled batch).map fun d => message_of d (outcome d)

/-- Whether a task is one of the directory-cleanup tasks. -/
def TaskDesc.isClean : TaskDesc → Bool
  | .cleanDir _ => true
  | _ => false

/-- Whether a task is the startup notes reload. -/
def TaskDesc.isNotes : TaskDesc → Bool
  | .loadNotes _ => true
  | _ => false

/-- Whether a message is a directory-cleanup completion event. -/
def Message.isCleanComplete : Message → Bool
  | .coreCleanComplete _ => true
  | _ => false

/-- Whether a message is a notes-reload completion event. -/
def Message.isNotesLoaded : Message → Bool
  | .notesLoaded _ => true
  | _ => false

/-- Whether a message is the Discord IPC completion event. -/
def Message.isDiscordLaunched : Message → Bool
  | .discordIPCClientLaunched _ => true
  | _ => false

/-! ### The Discord IPC retry-connection loop -/

/-- The fixed backoff interval between connection attempts, in seconds
(`tokio::time::sleep(Duration::from_secs(3))`). -/
def backoff_seconds : Nat := 3

/-- Total backoff time, in seconds, spent before the attempt with index
`k` runs: one fixed sleep after each of the `k` failed attempts before
it. -/
def totalBackoff (k : Nat) : Nat :=
  backoff_seconds * k

/-- The retry-connection loop of `Launcher::new`, over an environment
`attempt` giving each attempt's outcome (`DiscordIPC::new` either yields
a client handle or fails).  `fuel` bounds how many attempts the model
unfolds; the loop itself is unbounded.  Returns the handle together with
the index of the attempt that produced it. -/
def retry_connect {H : Type} (attempt : Nat → Option H) :
    Nat → Nat → Option (H × Nat)
  | 0, _ => none
  | fuel + 1, i =>
    match attempt i with
    | some h => some (h, i)
    | none => retry_connect attempt fuel (i + 1)

/-! ### The `main` startup sequence as an event trace -/

/-- Observable events of the `main` startup sequence: the migration guard
running (with its decision), a synchronous migration filesystem syscall
(rename or symlink creation), an `await` suspension point, and the spawn
of an asynchronous startup task. -/
inductive MainEvent where
  | migrationGuard (decision : Bool)
  | migrationFsOp
  | awaitSuspension
  | spawnTask (d : TaskDesc)
deriving DecidableEq, Repr

/-- The events produced by the migration section of `main`: on
Linux/FreeBSD the guard runs, and when it decides to migrate the action
attempts the rename (one syscall) and, only after a successful rename,
the symlink creation (a second syscall).  Both functions are synchronous:
no suspension event can occur here. -/
def migration_events (linuxLike : Bool) (env : FsOpsOutcome) (fs : Fs) :
    List MainEvent :=
  if linuxLike then
    .migrationGuard (should_migrate fs) ::
      (if should_migrate fs then
        (if env.renameOk then [.migrationFsOp, .migrationFsOp]
         else [.migrationFsOp])
       else [])
  else []

/-- The startup event trace of `main`: the migration section runs to
completion first, then `iced::application(...).run_with(Launcher::new)`
spawns every scheduled task of the batch. -/
def main_events (linuxLike : Bool) (env : FsOpsOutcome) (fs : Fs)
    (autoUpdate : Bool) (config : Except JsonFileError LauncherConfig)
    (launcher : LoadedLauncher) : List MainEvent :=
  migration_events linuxLike env fs ++
    (scheduled (launcher_new_batch autoUpdate config launcher)).map .spawnTask

/-! ### Specification-side predicates, for comparison with the code -/

/-- Modelled from the spec: the claim's reading of the guard's success
condition, requiring the legacy path to "exist as a directory"
(`should_migrate` itself only tests existence). -/
def c1_claim_cond (fs : Fs) : Bool :=
  match fs.legacyDir, fs.newDir with
  | some l, some n =>
    if !existsAsDir fs l then false
    else if isSymlink fs l then false
    else if pathExists fs (n ++ ["config.json"]) then false
    else if l = n then false
    else true
  | _, _ => false

/-- Modelled from the spec: the claim's Discord IPC scheduling condition,
"the loaded configuration allows rich presence, or the configuration
failed to load (in which case the default is to allow)". -/
def rich_presence_claim_allows
    (config : Except JsonFileError LauncherConfig) : Bool :=
  match config with
  | .ok f => f.rich_presence.getD true
  | .error _ => true

/-- Whether a task is the Discord IPC connection task. -/
def TaskDesc.isDiscord : TaskDesc → Bool
  | .discordIPC => true
  | _ => false

/-- Whether the loaded state is the main launch menu. -/
def LState.isLaunch : LState → Bool
  | .launch => true
  | _ => false

/-- An outcome assignment overridden on the two cleanup tasks only,
used to state that cleanup failures do not affect any other task's
event. -/
def overrideCleanOutcomes (outcome : TaskDesc → Except String Unit)
    (r1 r2 : Except String Unit) : TaskDesc → Except String Unit :=
  fun d =>
    if d = .cleanDir "logs" then r1
    else if d = .cleanDir "downloads/cache" then r2
    else outcome d

/-! ### Concrete states used as witnesses and counterexamples -/

/-- The legacy data directory path `~/.qlauncher` of the scenario in the
spec. -/
def legacyPathEx : FPath := ["home", "u", ".qlauncher"]

/-- The new data directory path `~/.local/share/QuantumLauncher` of the
scenario in the spec. -/
def newPathEx : FPath := ["home", "u", ".local", "share", "QuantumLauncher"]

/-- A state where the legacy path holds a real directory and the new path
does not exist yet: migration should run. -/
def fsDirEx : Fs where
  legacyDir := some legacyPathEx
  newDir := some newPathEx
  entries := fun p => if p = legacyPathEx then some (.dir 7) else none

/-- A state where the legacy path holds a regular file (not a directory,
not a symlink) and the new path does not exist yet. -/
def fsFileEx : Fs where
  legacyDir := some legacyPathEx
  newDir := some newPathEx
  entries := fun p => if p = legacyPathEx then some (.file 7) else none

/-- A state where the legacy directory path is unresolvable. -/
def fsNoLegacyEx : Fs where
  legacyDir := none
  newDir := some newPathEx
  entries := fun _ => none

/-- A loaded launcher with an instance selected but not in the launch
menu state (for example the error screen). -/
def launcherErrEx : LoadedLauncher where
  selected_instance := some "MyInstance"
  state := .otherState "errorScreen"

/-- A loaded launcher in the launch menu with no instance selected. -/
def launcherPlainEx : LoadedLauncher where
  selected_instance := none
  state := .launch

/-- A successfully loaded configuration with rich presence unset
(`None`, defaulting to allowed). -/
def configOkEx : Except JsonFileError LauncherConfig :=
  .ok { rich_presence := none }

/-- A failed configuration load. -/
def configErrEx : Except JsonFileError LauncherConfig :=
  .error .ioErr

/-- An environment where both migration syscalls succeed. -/
def envOkEx : FsOpsOutcome where
  renameOk := true
  symlinkOk := true

/-! ### Helper lemmas -/

/-- Characterization of the migration guard: it answers `true` exactly
when both paths resolve, the legacy path exists and is not a symlink, the
new path's `config.json` is absent, and the two paths differ. -/
lemma should_migrate_iff (fs : Fs) :
    should_migrate fs = true ↔
      ∃ l n, fs.legacyDir = some l ∧ fs.newDir = some n ∧
        isSymlink fs l = false ∧ pathExists fs l = true ∧
        pathExists fs (n ++ ["config.json"]) = false ∧ l ≠ n := by
  unfold should_migrate should_migrate_run
  cases hL : fs.legacyDir with
  | none => simp
  | some l =>
    cases hS : isSymlink fs l with
    | true => simp [hS]
    | false =>
      cases hE : pathExists fs l with
      | false => simp [hS, hE]
      | true =>
        cases hN : fs.newDir with
        | none => simp [hS, hE]
        | some n =>
          cases hC : pathExists fs (n ++ ["config.json"]) with
          | true => simp [hS, hE, hC]
          | false =>
            by_cases hEq : l = n
            · subst hEq
              simp [hS, hE, hC]
            · simp [hS, hE, hC, hEq]

/-- A state on which the guard fires resolves both directory paths. -/
lemma should_migrate_resolves {fs : Fs} (h : should_migrate fs = true) :
    ∃ l n, fs.legacyDir = some l ∧ fs.newDir = some n := by
  obtain ⟨l, n, hL, hN, _⟩ := (should_migrate_iff fs).mp h
  exact ⟨l, n, hL, hN⟩

/-- Every event of the migration section is the guard decision or a
synchronous filesystem operation. -/
lemma mem_migration_events {linuxLike : Bool} {env : FsOpsOutcome}
    {fs : Fs} {e : MainEvent} (he : e ∈ migration_events linuxLike env fs) :
    e = .migrationGuard (should_migrate fs) ∨ e = .migrationFsOp := by
  unfold migration_events at he
  cases linuxLike with
  | false => simp at he
  | true =>
    simp only [if_true] at he
    rcases List.mem_cons.mp he with h | h
    · exact Or.inl h
    · right
      split at h
      · split at h <;> simp_all
      · simp at h

/-! ### Claim C1: the conditions under which `should_migrate` answers -/

/-- Claim C1 (corrected at the "exists as a directory" clause): the claim
states that `should_migrate` answers `false` whenever the legacy path
does not exist *as a directory*; on the state `fsFileEx`, whose legacy
path holds a regular file, the guard nevertheless answers `true`, so the
claimed equivalence with the directory-requiring condition fails. -/
theorem c1_should_migrate_counterexample :
    should_migrate fsFileEx = true ∧
    fsFileEx.legacyDir = some legacyPathEx ∧
    existsAsDir fsFileEx legacyPathEx = false ∧
    c1_claim_cond fsFileEx = false := by decide

/-- Claim C1 (amended): `should_migrate` answers `true` exactly when the
legacy path resolves, exists (as any filesystem object) and is not a
symbolic link, the new path resolves, the new path's `config.json` does
not exist, and the two paths differ; it answers `false` whenever any of
these fails.  The existence test is plain existence, not
existence-as-a-directory. -/
theorem c1_should_migrate_characterization (fs : Fs) :
    should_migrate fs = true ↔
      ∃ l n, fs.legacyDir = some l ∧ fs.newDir = some n ∧
        isSymlink fs l = false ∧ pathExists fs l = true ∧
        pathExists fs (n ++ ["config.json"]) = false ∧ l ≠ n :=
  should_migrate_iff fs

/-! ### Claim C4: idempotence of the migration sequence -/

/-- Claim C4: after running the decision-then-action sequence once with a
successful migration (both the rename and the symlink creation succeed),
a second evaluation of `should_migrate` returns `false`: the legacy path
now holds the migration-sentinel symlink. -/
theorem c4_migration_idempotent (env : FsOpsOutcome) (fs : Fs)
    (hr : env.renameOk = true) (hs : env.symlinkOk = true)
    (hm : should_migrate fs = true) :
    should_migrate (migration_step env fs) = false := by
  obtain ⟨l, n, hL, hN⟩ := should_migrate_resolves hm
  unfold migration_step
  rw [hm]
  simp only [if_true]
  simp only [do_migration, hL, hN, hr, hs, if_true]
  simp [should_migrate, should_migrate_run, fsCreateSymlink, fsRename,
    isSymlink, hL]

/-- Witness for C4: on the concrete state whose legacy path holds a real
directory and whose new path is fresh, the guard fires, and after a fully
successful migration it no longer fires. -/
theorem c4_migration_idempotent_witness :
    should_migrate (migration_step envOkEx fsDirEx) = false :=
  c4_migration_idempotent envOkEx fsDirEx (by decide) (by decide) (by decide)

/-! ### Claim C5: failure handling of the migration action -/

/-- Claim C5: when both paths resolve, a failed rename leaves the
filesystem exactly as it was (no symlink is created, the legacy contents
are intact) and reports the error on plain stderr; a failed symlink
creation after a successful rename leaves the state exactly as the rename
produced it — in particular the moved contents sit untouched at the new
path — and reports the error on plain stderr. -/
theorem c5_do_migration_failure_handling (env : FsOpsOutcome) (fs : Fs)
    (l n : FPath) (hL : fs.legacyDir = some l) (hN : fs.newDir = some n) :
    (env.renameOk = false →
      (do_migration env fs).1 = fs ∧
      ConsoleEvent.stderrLine "Migration failed" ∈ (do_migration env fs).2) ∧
    (env.renameOk = true → env.symlinkOk = false →
      (do_migration env fs).1 = fsRename fs l n ∧
      (do_migration env fs).1.entries n = fs.entries l ∧
      ConsoleEvent.stderrLine
          "Migration successful but couldn't create symlink to the legacy dir"
        ∈ (do_migration env fs).2) := by
  constructor
  · intro hr
    simp [do_migration, hL, hN, hr]
  · intro hr hs
    simp [do_migration, hL, hN, hr, hs, fsRename]

/-- Witness for C5: evaluated on the concrete directory state, with a
failing rename in the first part and a failing symlink creation in the
second. -/
theorem c5_do_migration_failure_handling_witness :
    ((do_migration ⟨false, true⟩ fsDirEx).1 = fsDirEx ∧
      ConsoleEvent.stderrLine "Migration failed"
        ∈ (do_migration ⟨false, true⟩ fsDirEx).2) ∧
    ((do_migration ⟨true, false⟩ fsDirEx).1 =
        fsRename fsDirEx legacyPathEx newPathEx ∧
      (do_migration ⟨true, false⟩ fsDirEx).1.entries newPathEx =
        fsDirEx.entries legacyPathEx ∧
      ConsoleEvent.stderrLine
          "Migration successful but couldn't create symlink to the legacy dir"
        ∈ (do_migration ⟨true, false⟩ fsDirEx).2) :=
  ⟨(c5_do_migration_failure_handling ⟨false, true⟩ fsDirEx legacyPathEx
      newPathEx rfl rfl).1 rfl,
    (c5_do_migration_failure_handling ⟨true, false⟩ fsDirEx legacyPathEx
      newPathEx rfl rfl).2 rfl rfl⟩

/-! ### Claim C10: no mutation when a path fails to resolve -/

/-- Claim C10: when either directory path fails to resolve,
`do_migration` performs no filesystem mutation at all — the resulting
state is the input state. -/
theorem c10_do_migration_no_mutation (env : FsOpsOutcome) (fs : Fs)
    (h : fs.legacyDir = none ∨ fs.newDir = none) :
    (do_migration env fs).1 = fs := by
  rcases h with h | h
  · simp [do_migration, h]
  · cases hL : fs.legacyDir <;> simp [do_migration, hL, h]

/-- Witness for C10: evaluated on the concrete state whose legacy path is
unresolvable. -/
theorem c10_do_migration_no_mutation_witness :
    (do_migration envOkEx fsNoLegacyEx).1 = fsNoLegacyEx :=
  c10_do_migration_no_mutation envOkEx fsNoLegacyEx (Or.inl rfl)

/-! ### Claim C6: logging discipline of the migration code -/

/-- Claim C6 (corrected at the full-success path): the claim states that
`do_migration` never calls into the structured logging subsystem on any
path including full success; but on a fully successful migration the
action's final message goes through the structured logger
(`ql_core::info!`). -/
theorem c6_structured_log_counterexample :
    ConsoleEvent.structuredLog "Migration successful!"
        ∈ (do_migration envOkEx fsDirEx).2 ∧
    ((do_migration envOkEx fsDirEx).2.any ConsoleEvent.isStructured) = true := by
  decide

/-- Claim C6 (amended): the migration guard never emits a structured-log
event — all its diagnostics are plain stderr lines — and the migration
action emits a structured-log event exactly on the full-success path
(both directories resolve and both syscalls succeed); every error path
uses plain console output only. -/
theorem c6_migration_logging_discipline (env : FsOpsOutcome) (fs : Fs) :
    ((should_migrate_run fs).2.any ConsoleEvent.isStructured) = false ∧
    ((do_migration env fs).2.any ConsoleEvent.isStructured) =
      (fs.legacyDir.isSome && fs.newDir.isSome &&
        env.renameOk && env.symlinkOk) := by
  constructor
  · unfold should_migrate_run
    cases hL : fs.legacyDir with
    | none => simp
    | some l =>
      cases hS : isSymlink fs l || !pathExists fs l with
      | true => simp [hS]
      | false =>
        cases hN : fs.newDir with
        | none => simp [hS, ConsoleEvent.isStructured]
        | some n =>
          cases hC : pathExists fs (n ++ ["config.json"]) with
          | true => simp [hS, hC, ConsoleEvent.isStructured]
          | false =>
            by_cases hEq : l = n
            · subst hEq
              simp_all [ConsoleEvent.isStructured]
            · simp [hS, hC, hEq, ConsoleEvent.isStructured]
  · cases hL : fs.legacyDir with
    | none => simp [do_migration, hL, ConsoleEvent.isStructured]
    | some l =>
      cases hN : fs.newDir with
      | none => simp [do_migration, hL, hN, ConsoleEvent.isStructured]
      | some n =>
        cases hr : env.renameOk with
        | false => simp [do_migration, hL, hN, hr, ConsoleEvent.isStructured]
        | true =>
          cases hs : env.symlinkOk <;>
            simp [do_migration, hL, hN, hr, hs, ConsoleEvent.isStructured]

/-! ### Claim C2: scheduling of the Discord IPC task -/

/-- Claim C2 (corrected at the load-failure default): the claim states
that the Discord IPC task is also scheduled when the configuration failed
to load (default-allow); but `is_ok_and` makes a failed load yield
`false`, so on a failed configuration load the task is not scheduled even
though the claim's condition allows it. -/
theorem c2_discord_default_allow_counterexample :
    rich_presence_claim_allows configErrEx = true ∧
    (scheduled (launcher_new_batch true configErrEx launcherPlainEx)).any
        TaskDesc.isDiscord = false := by
  decide

/-- Claim C2 (amended): the Discord IPC task is scheduled exactly when
the configuration loaded successfully and its rich-presence setting
(defaulting to allowed when absent) is on; a failed configuration load
means the task is not scheduled.  An unscheduled Discord task contributes
no completion event: the Discord completion event appears in the
delivered events exactly when the task was scheduled. -/
theorem c2_discord_scheduling (autoUpdate : Bool)
    (config : Except JsonFileError LauncherConfig)
    (launcher : LoadedLauncher) (outcome : TaskDesc → Except String Unit) :
    ((scheduled (launcher_new_batch autoUpdate config launcher)).any
        TaskDesc.isDiscord = rich_presence_enabled config) ∧
    ((completion_events (launcher_new_batch autoUpdate config launcher)
          outcome).any Message.isDiscordLaunched =
      rich_presence_enabled config) := by
  obtain ⟨si, st⟩ := launcher
  cases autoUpdate <;> cases hrp : rich_presence_enabled config <;>
    cases si <;> cases st <;>
      simp [launcher_new_batch, scheduled, completion_events, message_of,
        hrp, TaskDesc.isDiscord, Message.isDiscordLaunched]

/-! ### Claim C8: the two directory-cleanup tasks -/

/-- Claim C8: whatever the configuration, feature flags and loaded state,
exactly two cleanup tasks are scheduled — one for the logs directory, one
for the download cache — and the delivered cleanup completion events are
exactly two events of the same variant, each built from its own task's
result (so two failures yield two independent events each carrying its
own error); moreover overriding the two cleanup outcomes (for example by
failures) leaves every non-cleanup completion event unchanged. -/
theorem c8_two_cleanup_tasks (autoUpdate : Bool)
    (config : Except JsonFileError LauncherConfig)
    (launcher : LoadedLauncher) (outcome : TaskDesc → Except String Unit)
    (r1 r2 : Except String Unit) :
    ((scheduled (launcher_new_batch autoUpdate config launcher)).filter
        TaskDesc.isClean =
      [.cleanDir "logs", .cleanDir "downloads/cache"]) ∧
    ((completion_events (launcher_new_batch autoUpdate config launcher)
          outcome).filter Message.isCleanComplete =
      [.coreCleanComplete (outcome (.cleanDir "logs")),
        .coreCleanComplete (outcome (.cleanDir "downloads/cache"))]) ∧
    ((completion_events (launcher_new_batch autoUpdate config launcher)
          (overrideCleanOutcomes outcome r1 r2)).filter
        (fun m => !m.isCleanComplete) =
      (completion_events (launcher_new_batch autoUpdate config launcher)
          outcome).filter (fun m => !m.isCleanComplete)) := by
  obtain ⟨si, st⟩ := launcher
  cases autoUpdate <;> cases hrp : rich_presence_enabled config <;>
    cases si <;> cases st <;>
      simp [launcher_new_batch, scheduled, completion_events, message_of,
        hrp, TaskDesc.isClean, Message.isCleanComplete,
        overrideCleanOutcomes]

/-! ### Claim C9: scheduling of the startup notes reload -/

/-- Claim C9 (corrected at the state condition): the claim states that
the notes reload is scheduled whenever an instance is selected in the
freshly loaded state; but on a loaded launcher that has an instance
selected while not in the launch-menu state, no notes task is
scheduled. -/
theorem c9_notes_scheduling_counterexample :
    launcherErrEx.selected_instance.isSome = true ∧
    (scheduled (launcher_new_batch true configOkEx launcherErrEx)).any
        TaskDesc.isNotes = false := by
  decide

/-- Claim C9 (amended): the startup notes reload task is scheduled
exactly when an instance is selected *and* the loaded state is the main
launch menu; otherwise it is a no-op, and the notes completion event
appears in the delivered events exactly when the task was scheduled. -/
theorem c9_notes_scheduling (autoUpdate : Bool)
    (config : Except JsonFileError LauncherConfig)
    (launcher : LoadedLauncher) (outcome : TaskDesc → Except String Unit) :
    ((scheduled (launcher_new_batch autoUpdate config launcher)).any
        TaskDesc.isNotes =
      (launcher.selected_instance.isSome && launcher.state.isLaunch)) ∧
    ((completion_events (launcher_new_batch autoUpdate config launcher)
          outcome).any Message.isNotesLoaded =
      (launcher.selected_instance.isSome && launcher.state.isLaunch)) := by
  obtain ⟨si, st⟩ := launcher
  cases autoUpdate <;> cases hrp : rich_presence_enabled config <;>
    cases si <;> cases st <;>
      simp [launcher_new_batch, scheduled, completion_events, message_of,
        hrp, TaskDesc.isNotes, Message.isNotesLoaded, LState.isLaunch]

/-! ### Claim C3: the retry-until-success connection loop -/

/-- Soundness of the retry loop: whenever it returns, the handle comes
from the attempt at the returned index, that attempt succeeded, and every
attempt between the start index and it failed. -/
lemma retry_connect_sound {H : Type} (attempt : Nat → Option H) :
    ∀ fuel i h k, retry_connect attempt fuel i = some (h, k) →
      attempt k = some h ∧ i ≤ k ∧
        ∀ j, i ≤ j → j < k → attempt j = none := by
  intro fuel
  induction fuel with
  | zero => intro i h k hk; simp [retry_connect] at hk
  | succ fuel ih =>
    intro i h k hk
    unfold retry_connect at hk
    cases hi : attempt i with
    | some h0 =>
      rw [hi] at hk
      cases hk
      exact ⟨hi, Nat.le_refl _, fun j hij hjk => absurd hij (by omega)⟩
    | none =>
      rw [hi] at hk
      obtain ⟨hs, hik, hfail⟩ := ih (i + 1) h k hk
      refine ⟨hs, by omega, fun j hij hjk => ?_⟩
      rcases Nat.eq_or_lt_of_le hij with rfl | hij'
      · exact hi
      · exact hfail j (by omega) hjk

/-- Completeness of the retry loop: with enough fuel it reaches the first
successful attempt and returns its handle. -/
lemma retry_connect_finds {H : Type} (attempt : Nat → Option H) :
    ∀ fuel i k h, (∀ j, i ≤ j → j < k → attempt j = none) →
      attempt k = some h → i ≤ k → k < i + fuel →
      retry_connect attempt fuel i = some (h, k) := by
  intro fuel
  induction fuel with
  | zero => intro i k h _ _ hik hk; omega
  | succ fuel ih =>
    intro i k h hfail hsucc hik hk
    unfold retry_connect
    rcases Nat.eq_or_lt_of_le hik with rfl | hlt
    · rw [hsucc]
    · rw [hfail i (Nat.le_refl _) hlt]
      exact ih (i + 1) k h (fun j hij hjk => hfail j (by omega) hjk)
        hsucc hlt (by omega)

/-- Claim C3: the retry connection loop returns exactly the handle of the
first successful attempt — given any outcome sequence whose attempts
before index `k` all fail and whose attempt `k` succeeds, the loop
(unfolded far enough) returns that attempt's handle after `k` fixed
3-second backoff intervals; whenever the loop returns at all, the
returned handle is a successful attempt's and all earlier attempts
failed; and when the first two attempts fail, at least two full backoff
intervals elapse before success. -/
theorem c3_retry_connect_first_success {H : Type} (attempt : Nat → Option H)
    (fuel k : Nat) (h : H)
    (hfail : ∀ j, j < k → attempt j = none)
    (hsucc : attempt k = some h) (hfuel : k < fuel) :
    retry_connect attempt fuel 0 = some (h, k) ∧
    (∀ fuel' k' h', retry_connect attempt fuel' 0 = some (h', k') →
      attempt k' = some h' ∧ ∀ j, j < k' → attempt j = none) ∧
    (2 ≤ k → 2 * backoff_seconds ≤ totalBackoff k) := by
  refine ⟨?_, ?_, ?_⟩
  · exact retry_connect_finds attempt fuel 0 k h
      (fun j _ hj => hfail j hj) hsucc (Nat.zero_le _) (by omega)
  · intro fuel' k' h' hret
    obtain ⟨hs, _, hf⟩ := retry_connect_sound attempt fuel' 0 h' k' hret
    exact ⟨hs, fun j hj => hf j (Nat.zero_le _) hj⟩
  · intro hk
    simp only [totalBackoff, backoff_seconds]
    omega

/-- A connector environment whose first two attempts fail and whose third
attempt yields the handle `42`. -/
def attemptEx : Nat → Option Nat :=
  fun i => if i = 2 then some 42 else none

/-- Witness for C3: on the connector that fails twice and then succeeds,
the loop returns the third attempt's handle, and at least two full
backoff intervals were spent. -/
theorem c3_retry_connect_first_success_witness :
    retry_connect attemptEx 5 0 = some (42, 2) ∧
    2 * backoff_seconds ≤ totalBackoff 2 := by
  have h := c3_retry_connect_first_success attemptEx 5 2 42
    (by decide) (by decide) (by decide)
  exact ⟨h.1, h.2.2 (by decide)⟩

/-! ### Claim C7: the migration completes before any task starts -/

/-- Claim C7: in the startup trace of `main`, every asynchronous task
spawn occurs strictly after the whole migration section — the guard and,
when it fires, the action — and the migration section contains no
suspension point and spawns no task. -/
theorem c7_migration_before_tasks (linuxLike : Bool) (env : FsOpsOutcome)
    (fs : Fs) (autoUpdate : Bool)
    (config : Except JsonFileError LauncherConfig)
    (launcher : LoadedLauncher) :
    (∀ i d,
      (main_events linuxLike env fs autoUpdate config launcher)[i]? =
          some (.spawnTask d) →
      (migration_events linuxLike env fs).length ≤ i) ∧
    (∀ e ∈ migration_events linuxLike env fs,
      e ≠ .awaitSuspension ∧ ∀ d, e ≠ .spawnTask d) := by
  constructor
  · intro i d hi
    by_contra hlt
    push_neg at hlt
    rw [main_events, List.getElem?_append_left hlt] at hi
    have hmem := List.getElem?_mem hi
    rcases mem_migration_events hmem with h | h <;> simp at h
  · intro e he
    rcases mem_migration_events he with h | h <;> subst h <;>
      exact ⟨by simp, fun d => by simp⟩

/-- Witness for C7: on a concrete startup (Linux-like platform, legacy
path unresolvable, update checking on), the first spawned task sits at
index 1, right after the one-event migration section, and the guard event
is no suspension. -/
theorem c7_migration_before_tasks_witness :
    (migration_events true envOkEx fsNoLegacyEx).length ≤ 1 ∧
    MainEvent.migrationGuard false ≠ MainEvent.awaitSuspension :=
  ⟨(c7_migration_before_tasks true envOkEx fsNoLegacyEx true configOkEx
      launcherPlainEx).1 1 .updateCheck (by decide),
    ((c7_migration_before_tasks true envOkEx fsNoLegacyEx true configOkEx
      launcherPlainEx).2 (.migrationGuard false) (by decide)).1⟩

end QuantumLauncher
